import Mathlib

/-!
Verification development for the SPU processing tool
(`src/processor.py`, `src/mapping_engine.py`, `src/utils.py`).

The Python data model is shallowly embedded:
pandas cells become `Pv` (NaN, number, string), DataFrames become lists of
rows, the JSON config becomes `Json`, worksheets become `String → Option Pv`
maps updated by in-order cell writes.  Each embedded function mirrors one
Python function of the repository and is named after it.
-/

namespace SPU

/-- A pandas cell value: NaN/absent (`na`), a number (Python ints/floats are
modelled as rationals), or a string. -/
inductive Pv where
  | na : Pv
  | num : ℚ → Pv
  | str : String → Pv
deriving DecidableEq

/-- Python `str()` of a numeric cell holding a float that the repository's
data uses (integral values): `str(float(20)) = "20.0"`.  Non-integral
rationals are rendered with Lean's rational notation; every numeric key the
tool builds (`str(float(bw))`, `str(safe_int(...))`) is integral, which this
models exactly. -/
def pyStrNum (q : ℚ) : String :=
  if q.den = 1 then toString q.num ++ ".0" else toString q

/-- Python `str()` of a cell value (`str(nan) = "nan"`). -/
def pyStr : Pv → String
  | .na => "nan"
  | .num q => pyStrNum q
  | .str s => s

/-- `pd.notna` on a cell. -/
def pyNotna : Pv → Bool
  | .na => false
  | _ => true

/-- Python `str.strip()`, computed on the character list (so that proofs can
evaluate it on concrete strings). -/
def pyTrim (s : String) : String :=
  ⟨((s.data.dropWhile Char.isWhitespace).reverse.dropWhile Char.isWhitespace).reverse⟩

/-- Does `pre` lead the character list `cs`? -/
def leadsWith : List Char → List Char → Bool
  | [], _ => true
  | _ :: _, [] => false
  | a :: as, b :: bs => a = b && leadsWith as bs

/-- Python `str.startswith(pre)`. -/
def pyStartsWith (s pre : String) : Bool := leadsWith pre.data s.data

/-- Python `s[n:]`. -/
def pyDrop (n : ℕ) (s : String) : String := ⟨s.data.drop n⟩

/-- Helper for single-character `str.split(sep)`. -/
def splitCharAux (c : Char) : List Char → List Char → List String
  | [], acc => [⟨acc.reverse⟩]
  | a :: rest, acc =>
    if a = c then ⟨acc.reverse⟩ :: splitCharAux c rest []
    else splitCharAux c rest (a :: acc)

/-- Python `str.split(sep)` for a one-character separator. -/
def pySplitChar (c : Char) (s : String) : List String := splitCharAux c s.data []

/-- Is `sub` a substring of `cs`? -/
def hasSubAux (sub : List Char) : List Char → Bool
  | [] => leadsWith sub []
  | a :: rest => leadsWith sub (a :: rest) || hasSubAux sub rest

/-- Python `sub in s` on strings. -/
def hasSub (sub s : String) : Bool := hasSubAux sub.data s.data

/-- Python `str.lower()`. -/
def pyToLower (s : String) : String := ⟨s.data.map Char.toLower⟩

/-- `safe_str` from processor.py: `""` for NaN, else `str(value).strip()`. -/
def safeStr (v : Pv) : String :=
  match v with
  | .na => ""
  | v => pyTrim (pyStr v)

/-- Parse a run of decimal digits (`none` on any non-digit). -/
def digitsToNat? (cs : List Char) : Option ℕ :=
  cs.foldl
    (fun acc c =>
      acc.bind fun n => if c.isDigit then some (10 * n + (c.toNat - 48)) else none)
    (some 0)

/-- Model of Python `float(str)`: optional sign, decimal digits with an
optional fractional part; `none` when `float()` would raise `ValueError`.
(Exponent notation and inf/nan literals do not occur in this repository's
inputs.) -/
def parseFloatLit (s : String) : Option ℚ :=
  let t := pyTrim s
  let sgn : ℚ := if pyStartsWith t "-" then -1 else 1
  let u : String :=
    if pyStartsWith t "-" then pyDrop 1 t
    else if pyStartsWith t "+" then pyDrop 1 t
    else t
  match pySplitChar '.' u with
  | [a] =>
    if a ≠ "" then (digitsToNat? a.toList).map (fun n => sgn * n) else none
  | [a, b] =>
    if a = "" ∧ b = "" then none
    else
      (if a = "" then some 0 else digitsToNat? a.toList).bind fun ia =>
        (if b = "" then some 0 else digitsToNat? b.toList).map fun fb =>
          sgn * ((ia : ℚ) + (fb : ℚ) / ((10 : ℚ) ^ b.length))
  | _ => none

/-- Python `int()` applied to a number truncates toward zero. -/
def pyTruncQ (q : ℚ) : ℤ := if 0 ≤ q then ⌊q⌋ else ⌈q⌉

/-- `safe_int` from processor.py: `int(float(value))`, with `default` for NaN
or a failed conversion. -/
def safeInt (v : Pv) (default : ℤ) : ℤ :=
  match v with
  | .na => default
  | .num q => pyTruncQ q
  | .str s =>
    match parseFloatLit s with
    | some q => pyTruncQ q
    | none => default

/-- Key used by `get_bandwidth_code` for the config-table lookup:
`str(float(bw)) if bw else "0"`. -/
def bwFloatKey (bw : ℤ) : String :=
  if bw ≠ 0 then toString bw ++ ".0" else "0"

/-- `get_bandwidth_code` from `SPUProcessor._process_cell4g_sheet`: config
table lookup keyed by `str(float(bw))`, with the tiered fallback. -/
def get_bandwidth_code (bandwidthMapping : List (String × ℤ)) (bw : ℤ) : ℤ :=
  match bandwidthMapping.lookup (bwFloatKey bw) with
  | some code => code
  | none =>
    if bw ≥ 20 then 5
    else if bw ≥ 15 then 4
    else if bw ≥ 10 then 3
    else if bw ≥ 5 then 2
    else if bw ≥ 3 then 1
    else 0

/-- JSON-like configuration document (`config.json`). -/
inductive Json where
  | s : String → Json
  | i : ℤ → Json
  | null : Json
  | arr : List Json → Json
  | obj : List (String × Json) → Json

mutual

/-- Python `repr()` of a JSON value (what `str()` prints for composites). -/
def pyReprJson : Json → String
  | .s v => "\x27" ++ v ++ "\x27"
  | .i n => toString n
  | .null => "None"
  | .arr xs => "[" ++ pyReprArrItems xs ++ "]"
  | .obj es => "\x7b" ++ pyReprObjItems es ++ "\x7d"

/-- Comma-separated `repr` items of a JSON array. -/
def pyReprArrItems : List Json → String
  | [] => ""
  | [v] => pyReprJson v
  | v :: rest => pyReprJson v ++ ", " ++ pyReprArrItems rest

/-- Comma-separated `repr` items of a JSON object. -/
def pyReprObjItems : List (String × Json) → String
  | [] => ""
  | [(k, v)] => "\x27" ++ k ++ "\x27: " ++ pyReprJson v
  | (k, v) :: rest => "\x27" ++ k ++ "\x27: " ++ pyReprJson v ++ ", " ++ pyReprObjItems rest

end

/-- Python `str()` of a JSON value. -/
def pyStrJson : Json → String
  | .s v => v
  | j => pyReprJson j

/-- `dict.get(key, {})` on a JSON node. -/
def jsonGetD (j : Json) (k : String) : Json :=
  match j with
  | .obj es => (es.lookup k).getD (.obj [])
  | _ => .obj []

/-- The entries of a JSON object (empty for non-objects). -/
def jsonEntries : Json → List (String × Json)
  | .obj es => es
  | _ => []

/-- The elements of a JSON array as strings (the MME/AMF pools are arrays of
IP strings). -/
def jsonArrStrings : Json → List String
  | .arr xs => xs.map pyStrJson
  | _ => []

/-- A JSON value used as a pandas cell (scalars pass through; the tool's
lookup tables only hold scalars, composites keep their printed form). -/
def jsonToPv : Json → Pv
  | .s v => .str v
  | .i n => .num (n : ℚ)
  | .null => .na
  | j => .str (pyReprJson j)

/-- The loop of `MappingEngine._get_config_value`: descend through nested
dicts along the key path; a missing segment (or a non-dict on the way)
yields `""`; at the end, `str(value) if value is not None else ""`. -/
def configWalk : List String → Json → String
  | [], v => match v with | .null => "" | v => pyStrJson v
  | k :: ks, .obj es =>
    (match es.lookup k with
     | some v => configWalk ks v
     | none => "")
  | _ :: _, _ => ""

/-- `MappingEngine._get_config_value`: dotted-path lookup into the config. -/
def getConfigValue (cfg : Json) (keyPath : String) : String :=
  configWalk (pySplitChar '.' keyPath) cfg

/-- `config.get("SPU", {}).get(version, {})` (`MappingEngine._get_spu_config`). -/
def engineSpuConfig (cfg : Json) (version : String) : Json :=
  jsonGetD (jsonGetD cfg "SPU") version

/-- Python `str.split()` with no separator: split on blanks, drop empties. -/
def splitWs (s : String) : List String :=
  (pySplitChar ' ' s).filter (· ≠ "")

/-- A source-data row: column name to cell value (absent column = absent key). -/
abbrev Row := List (String × Pv)

/-- `row[col]` with NaN for an absent column. -/
def rowGet (r : Row) (col : String) : Pv := (r.lookup col).getD .na

/-- A pandas DataFrame: its column names and its rows. -/
structure Df where
  columns : List String
  rows : List Row

/-- One row of the "Mapping" sheet. -/
structure MappingRow where
  version : Pv := .na
  sheet : Pv := .na
  column : Pv := .na
  sourceSheet : Pv := .na
  sourceColumn : Pv := .na
  fixedValue : Pv := .na
  note : Pv := .na
  meaning : Pv := .na
deriving DecidableEq

/-- The "Mapping" sheet as a DataFrame of `MappingRow`s. -/
structure MappingDf where
  columns : List String
  rows : List MappingRow

/-- A parsed mapping rule as stored by `SPUProcessor._parse_mappings`. -/
structure ProcRule where
  column : String
  sourceSheet : String
  sourceColumn : String
  fixedValue : Option Pv
deriving DecidableEq

/-- `SPUProcessor._parse_mappings`: `mapping_df[mapping_df["Version"] == self.version]`
(a `KeyError` when the sheet has no `Version` column), then one rule per row
with non-blank Sheet and Column.  The per-sheet `dict` of lists is represented
as the ordered list of (sheet, rule) pairs. -/
def processorParseMappings (version : String) (df : MappingDf) :
    Except String (List (String × ProcRule)) :=
  if "Version" ∈ df.columns then
    .ok ((df.rows.filter (fun r => r.version == Pv.str version)).foldl
      (fun acc r =>
        let sheet := safeStr r.sheet
        let column := safeStr r.column
        if sheet = "" ∨ column = "" then acc
        else
          acc ++ [(sheet,
            { column
              sourceSheet := safeStr r.sourceSheet
              sourceColumn := safeStr r.sourceColumn
              fixedValue := if pyNotna r.fixedValue then some r.fixedValue else none })])
      [])
  else .error "KeyError: Version"

/-- `SPUProcessor.set_input_data`: parse the Mapping sheet when it is present
and non-empty; otherwise keep no mappings. -/
def setInputData (version : String) (inputData : List (String × MappingDf)) :
    Except String (List (String × ProcRule)) :=
  match inputData.lookup "Mapping" with
  | some df => if df.rows ≠ [] then processorParseMappings version df else .ok []
  | none => .ok []

/-- `SPUProcessor._get_mapped_value`: the stored fixed value is returned
verbatim when present; otherwise the source column's value when non-NaN. -/
def procGetMappedValue (m : ProcRule) (sourceRow : Row) : Option Pv :=
  match m.fixedValue with
  | some v => some v
  | none =>
    if m.sourceColumn ≠ "" ∧ (sourceRow.lookup m.sourceColumn).isSome then
      let value := rowGet sourceRow m.sourceColumn
      if pyNotna value then some value else none
    else none

/-- A parsed mapping rule as stored by `MappingEngine._parse_mappings`. -/
structure EngRule where
  targetColumn : String
  sourceSheet : String
  sourceColumn : String
  fixedValue : Pv
  note : String
  meaning : String
deriving DecidableEq

/-- `MappingEngine._parse_mappings`: rows pass the version mask
(match / NaN / empty string) when a `Version` column exists, need a non-blank
target sheet and target column, and keep the raw FixedValue. -/
def engineParseMappings (version : String) (df : MappingDf) :
    List (String × EngRule) :=
  if df.rows = [] then []
  else
    let filtered :=
      if "Version" ∈ df.columns then
        df.rows.filter fun r =>
          r.version == Pv.str version || r.version == Pv.na || r.version == Pv.str ""
      else df.rows
    filtered.foldl
      (fun acc r =>
        let targetSheet := pyTrim (pyStr r.sheet)
        if targetSheet = "" then acc
        else
          let rule : EngRule :=
            { targetColumn := pyTrim (pyStr r.column)
              sourceSheet := pyTrim (pyStr r.sourceSheet)
              sourceColumn := pyTrim (pyStr r.sourceColumn)
              fixedValue := r.fixedValue
              note := pyTrim (pyStr r.note)
              meaning := pyTrim (pyStr r.meaning) }
          if rule.targetColumn ≠ "" then acc ++ [(targetSheet, rule)] else acc)
      []

/-- `safe_int` with default `None` (mapping_engine.py). -/
def safeIntOpt (v : Pv) : Option ℤ :=
  match v with
  | .na => none
  | .num q => some (pyTruncQ q)
  | .str s => (parseFloatLit s).map pyTruncQ

/-- `MappingEngine._apply_bandwidth_mapping`. -/
def applyBandwidthMapping (spu : Json) (sourceData : List (String × Df))
    (numRows : ℕ) : Option (List (Option Pv)) :=
  let bwMapping := jsonEntries (jsonGetD spu "bandwidth_mapping")
  let result := (List.range numRows).map fun i =>
    match sourceData.lookup "Radio 4G" with
    | some df =>
      if df.rows ≠ [] ∧ i < df.rows.length ∧ "dlChannelBandwidth" ∈ df.columns then
        let bw := rowGet (df.rows.getD i []) "dlChannelBandwidth"
        match bwMapping.lookup (pyStr bw) with
        | some j => some (jsonToPv j)
        | none => some bw
      else none
    | none => none
  if result.any Option.isSome then some result else none

/-- `MappingEngine._apply_earfcn_mapping`. -/
def applyEarfcnMapping (spu : Json) (sourceData : List (String × Df))
    (numRows : ℕ) : Option (List (Option Pv)) :=
  let earfcnMapping := jsonEntries (jsonGetD spu "earfcn_mapping")
  let result := (List.range numRows).map fun i =>
    match sourceData.lookup "Radio 4G" with
    | some df =>
      if df.rows ≠ [] ∧ i < df.rows.length ∧ "arfcndl" ∈ df.columns then
        let earfcn := rowGet (df.rows.getD i []) "arfcndl"
        match safeIntOpt earfcn with
        | some n =>
          (match earfcnMapping.lookup (toString n) with
           | some j => some (jsonToPv j)
           | none => some earfcn)
        | none => none
      else none
    | none => none
  if result.any Option.isSome then some result else none

/-- `MappingEngine._apply_mme_mapping`. -/
def applyMmeMapping (cfg : Json) (sourceData : List (String × Df))
    (numRows : ℕ) : Option (List (Option Pv)) :=
  let mmeConfig := jsonEntries (jsonGetD cfg "mme")
  let result := (List.range numRows).map fun i =>
    match sourceData.lookup "IP" with
    | some df =>
      if df.rows ≠ [] ∧ i < df.rows.length ∧ "MME" ∈ df.columns then
        let names := splitWs (pyStr (rowGet (df.rows.getD i []) "MME"))
        let ips := names.foldl
          (fun acc name =>
            match mmeConfig.lookup name with
            | some j => acc ++ jsonArrStrings j
            | none => acc) []
        if ips ≠ [] then some (Pv.str (String.intercalate ";" ips)) else none
      else none
    | none => none
  if result.any Option.isSome then some result else none

/-- `MappingEngine._apply_amf_mapping`. -/
def applyAmfMapping (cfg : Json) (sourceData : List (String × Df))
    (numRows : ℕ) : Option (List (Option Pv)) :=
  let amfConfig := jsonEntries (jsonGetD cfg "amf")
  let result := (List.range numRows).map fun i =>
    match sourceData.lookup "IP" with
    | some df =>
      if df.rows ≠ [] ∧ i < df.rows.length ∧ "AMF" ∈ df.columns then
        let names := splitWs (pyStr (rowGet (df.rows.getD i []) "AMF"))
        let ips := names.foldl
          (fun acc name =>
            match amfConfig.lookup name with
            | some j => acc ++ jsonArrStrings j
            | none => acc) []
        if ips ≠ [] then some (Pv.str (String.intercalate ";" ips)) else none
      else none
    | none => none
  if result.any Option.isSome then some result else none

/-- `MappingEngine._apply_config_mapping`: case-insensitive substring
dispatch on the note. -/
def applyConfigMapping (cfg : Json) (version : String) (note : String)
    (sourceData : List (String × Df)) (numRows : ℕ) : Option (List (Option Pv)) :=
  let noteLower := pyToLower note
  let spu := engineSpuConfig cfg version
  if hasSub "bandwidth" noteLower then
    applyBandwidthMapping spu sourceData numRows
  else if hasSub "earfcn" noteLower || hasSub "frequency" noteLower then
    applyEarfcnMapping spu sourceData numRows
  else if hasSub "mme" noteLower then
    applyMmeMapping cfg sourceData numRows
  else if hasSub "amf" noteLower then
    applyAmfMapping cfg sourceData numRows
  else none

/-- The tail of `MappingEngine._apply_single_rule`: case 3 (note-driven
config mapping) and the `[None] * num_rows` default. -/
def engineNoteFallback (cfg : Json) (version : String) (rule : EngRule)
    (sourceData : List (String × Df)) (numRows : ℕ) : List (Option Pv) :=
  if rule.note ≠ "" then
    match applyConfigMapping cfg version rule.note sourceData numRows with
    | some vs => vs
    | none => List.replicate numRows none
  else List.replicate numRows none

/-- `MappingEngine._apply_single_rule`: fixed value (with the `config:`
indirection), then source-column copy, then the note-driven config mapping. -/
def engineApplySingleRule (cfg : Json) (version : String) (rule : EngRule)
    (sourceData : List (String × Df)) (numRows : ℕ) : List (Option Pv) :=
  if pyNotna rule.fixedValue ∧ pyTrim (pyStr rule.fixedValue) ≠ "" then
    let fixedVal := pyTrim (pyStr rule.fixedValue)
    if pyStartsWith fixedVal "config:" then
      List.replicate numRows (some (Pv.str (getConfigValue cfg (pyDrop 7 fixedVal))))
    else List.replicate numRows (some (Pv.str fixedVal))
  else if rule.sourceSheet ≠ "" ∧ rule.sourceColumn ≠ "" then
    match sourceData.lookup rule.sourceSheet with
    | some df =>
      if rule.sourceColumn ∈ df.columns then
        let values := df.rows.map fun r => some (rowGet r rule.sourceColumn)
        (values ++ List.replicate (numRows - values.length) none).take numRows
      else engineNoteFallback cfg version rule sourceData numRows
    | none => engineNoteFallback cfg version rule sourceData numRows
  else engineNoteFallback cfg version rule sourceData numRows

/-- The column names of the repository's Mapping sheet. -/
def mappingCols : List String :=
  ["Version", "Sheet", "Column", "SourceSheet", "SourceColumn", "FixedValue",
   "Note", "Meaning"]

/-- Python `str.upper()`. -/
def pyToUpper (s : String) : String := ⟨s.data.map Char.toUpper⟩

/-- Python `int()` of a real value: truncation toward zero. -/
noncomputable def pyInt (x : ℝ) : ℤ := if 0 ≤ x then ⌊x⌋ else ⌈x⌉

/-- `power_input = float(configured_max_tx_power) if pd.notna(...) else 0`
(`none` = `float()` raised `ValueError`, caught by the surrounding `except`). -/
def cell5gPowerInput : Pv → Option ℚ
  | .na => some 0
  | .num q => some q
  | .str s => parseFloatLit s

/-- The `configuredMaxTxPower` computation of `_process_cell5g_sheet`:
`int(10 * (10 * math.log10(power_input) + 30))` for positive power, else 0;
`none` when the conversion raised and the write is skipped. -/
noncomputable def cell5gPowerOut (v : Pv) : Option ℤ :=
  (cell5gPowerInput v).map fun (q : ℚ) =>
    if 0 < q then pyInt (10 * (10 * Real.logb 10 ((q : ℝ)) + 30)) else 0

/-- `0.005 * float(x) if pd.notna(x) else 0`, the shared body of the
`frequencyDL`/`frequencyUL`/`NRFreqRelation_ssbFrequency` try-blocks
(`none` = raised, write skipped). -/
def scaledFreq (v : Pv) : Option ℚ :=
  match v with
  | .na => some 0
  | .num q => some (0.005 * q)
  | .str s => (parseFloatLit s).map (fun q => 0.005 * q)

/-- One attempt of the regex `VBP_1_(\d+)&` at the current position:
the captured digits when the pattern matches here. -/
def vbpMatchAt (cs : List Char) : Option String :=
  if leadsWith "VBP_1_".data cs then
    let rest := cs.drop 6
    let digits := rest.takeWhile Char.isDigit
    if digits ≠ [] ∧ leadsWith ['&'] (rest.drop digits.length) then some ⟨digits⟩
    else none
  else none

/-- `re.search` scanning for the first match position. -/
def searchVBPAux : List Char → Option String
  | [] => vbpMatchAt []
  | c :: rest =>
    match vbpMatchAt (c :: rest) with
    | some d => some d
    | none => searchVBPAux rest

/-- `re.search(r"VBP_1_(\d+)&", s)`, returning the captured digit group. -/
def searchVBP (s : String) : Option String := searchVBPAux s.data

/-- A `try`-guarded numeric cell write: nothing is written when the
conversion raised. -/
def optNumWrite (name : String) (o : Option ℚ) : List (String × Pv) :=
  match o with
  | some q => [(name, Pv.num q)]
  | none => []

/-- A `try`-guarded integer cell write. -/
def optIntWrite (name : String) (o : Option ℤ) : List (String × Pv) :=
  match o with
  | some z => [(name, Pv.num (z : ℚ))]
  | none => []

/-- The inputs of one Radio 5G row read by the cell5g calculated fields. -/
structure Cell5gRow where
  gnbId : String := ""
  cellLocalId : String := ""
  arfcnDl : Pv := .na
  arfcnUl : Pv := .na
  ssbFrequency : Pv := .na
  rruPort : String := ""
  riPortBaseband : String := ""
  configuredMaxTxPower : Pv := .na

/-- The calculated-field writes of `_process_cell5g_sheet` for one row
(processor.py, the `functionMoId` .. `powerPerRERef` block), in program
order: each element is one `ws.cell(...)` call; a `try`-block whose
conversion raised contributes nothing. -/
noncomputable def cell5gCalcWrites (cols : List String) (r : Cell5gRow) :
    List (String × Pv) :=
  (if "functionMoId" ∈ cols then
    [("functionMoId", Pv.str ("452-04_" ++ r.gnbId))] else []) ++
  (if "masterOperatorId" ∈ cols then
    [("masterOperatorId", Pv.str ("45204-" ++ r.gnbId ++ "-" ++ r.cellLocalId))]
   else []) ++
  (if "frequencyDL" ∈ cols then optNumWrite "frequencyDL" (scaledFreq r.arfcnDl)
   else []) ++
  (if "frequencyUL" ∈ cols then optNumWrite "frequencyUL" (scaledFreq r.arfcnUl)
   else []) ++
  (if "NRFreqRelation_ssbFrequency" ∈ cols then
    optNumWrite "NRFreqRelation_ssbFrequency" (scaledFreq r.ssbFrequency)
   else []) ++
  (let antNum : ℚ :=
    if r.rruPort = "1-64" then 6 else if r.rruPort = "1-32" then 5 else 6
   (if "dlAntNum" ∈ cols then [("dlAntNum", Pv.num antNum)] else []) ++
   (if "ulAntNum" ∈ cols then [("ulAntNum", Pv.num antNum)] else [])) ++
  (if "bpPoolFunctionId" ∈ cols then
    [("bpPoolFunctionId", Pv.str
      (if r.riPortBaseband ≠ "" then
        match searchVBP r.riPortBaseband with
        | some d => "BF_" ++ d
        | none => ""
      else ""))]
   else []) ++
  (if "configuredMaxTxPower" ∈ cols then
    optIntWrite "configuredMaxTxPower" (cell5gPowerOut r.configuredMaxTxPower)
   else []) ++
  (if "powerPerRERef" ∈ cols then [("powerPerRERef", Pv.num 178)] else [])

/-- The cell5g calculated fields over the whole Radio 5G sheet: each source
row is processed independently, one output row per source row. -/
noncomputable def cell5gCalcSheet (cols : List String) (rows : List Cell5gRow) :
    List (List (String × Pv)) :=
  rows.map (cell5gCalcWrites cols)

/-- The bandwidth-code / `paForDTCH` / `sampleRateCfg` writes of
`_process_cell4g_sheet` for one Radio 4G row. -/
def cell4gBwWrites (cols : List String) (bandwidthMapping : List (String × ℤ))
    (cellType : String) (dlChannelBandwidth ulChannelBandwidth : Pv) :
    List (String × Pv) :=
  let dlBw := safeInt dlChannelBandwidth 0
  let ulBw := safeInt ulChannelBandwidth dlBw
  (if pyToUpper cellType = "FDD" then
    (if "bandWidthDl" ∈ cols then
      [("bandWidthDl", Pv.num ((get_bandwidth_code bandwidthMapping dlBw : ℤ) : ℚ))]
     else []) ++
    (if "bandWidthUl" ∈ cols then
      [("bandWidthUl", Pv.num ((get_bandwidth_code bandwidthMapping ulBw : ℤ) : ℚ))]
     else [])
  else
    (if "bandWidth" ∈ cols then
      [("bandWidth", Pv.num ((get_bandwidth_code bandwidthMapping dlBw : ℤ) : ℚ))]
     else [])) ++
  (if "paForDTCH" ∈ cols then
    [("paForDTCH", Pv.num (if pyToUpper cellType = "FDD" then 4 else 2))] else []) ++
  (if "sampleRateCfg" ∈ cols then
    [("sampleRateCfg",
      Pv.num (if get_bandwidth_code bandwidthMapping dlBw ≥ 4 then 2 else 0))]
   else [])

/-- The IP-sheet fields consumed by the Sctp routine for one element row. -/
structure SctpRowIn where
  neName : Pv := .na
  lteIp : Pv := .na
  nrIp : Pv := .na
  enbId : Pv := .na
  gnbId : Pv := .na
  mme : Pv := .na
  amf : Pv := .na

/-- One emitted row of the Sctp output sheet. -/
structure SctpEntry where
  meId : String
  sctpNo : ℕ
  localPort : ℕ
  localIp : String
  remotePort : ℕ
  remoteIp : String
  radioMode : ℕ
  assoType : ℕ
  nbId : String
  plmnId : String
deriving DecidableEq

/-- The MME loop of `_process_sctp_sheet`: one entry per configured MME name
with usable remote IPs (`0.0.0.0` and blanks excluded), numbered from `n`;
returns the entries and the next `sctp_no`. -/
def mmeEntries (mmeConfig : List (String × List String))
    (neName lteIp enbId : String) :
    List String → ℕ → List SctpEntry × ℕ
  | [], n => ([], n)
  | name :: rest, n =>
    match mmeConfig.lookup name with
    | some ips =>
      let remoteIps := ips.filter fun ip => ip != "" && ip != "0.0.0.0"
      if remoteIps ≠ [] then
        ({ meId := neName, sctpNo := n, localPort := 36412
           localIp := String.intercalate ";" (List.replicate remoteIps.length lteIp)
           remotePort := 36412
           remoteIp := String.intercalate ";" remoteIps
           radioMode := 48, assoType := 1, nbId := enbId, plmnId := "452-04" } ::
             (mmeEntries mmeConfig neName lteIp enbId rest (n + 1)).1,
         (mmeEntries mmeConfig neName lteIp enbId rest (n + 1)).2)
      else mmeEntries mmeConfig neName lteIp enbId rest n
    | none => mmeEntries mmeConfig neName lteIp enbId rest n

/-- The AMF loop: ports 38412, radioMode 8192, NBId = gNBId. -/
def amfEntries (amfConfig : List (String × List String))
    (neName nrIp gnbId : String) :
    List String → ℕ → List SctpEntry × ℕ
  | [], n => ([], n)
  | name :: rest, n =>
    match amfConfig.lookup name with
    | some ips =>
      let remoteIps := ips.filter fun ip => ip != "" && ip != "0.0.0.0"
      if remoteIps ≠ [] then
        ({ meId := neName, sctpNo := n, localPort := 38412
           localIp := String.intercalate ";" (List.replicate remoteIps.length nrIp)
           remotePort := 38412
           remoteIp := String.intercalate ";" remoteIps
           radioMode := 8192, assoType := 1, nbId := gnbId, plmnId := "452-04" } ::
             (amfEntries amfConfig neName nrIp gnbId rest (n + 1)).1,
         (amfEntries amfConfig neName nrIp gnbId rest (n + 1)).2)
      else amfEntries amfConfig neName nrIp gnbId rest n
    | none => amfEntries amfConfig neName nrIp gnbId rest n

/-- `_process_sctp_sheet` for one element row: MME entries, then AMF entries
(only when an NR IP exists), then the two X2 entries (only when both an LTE
and an NR IP exist), with `sctp_no` threaded from 1. -/
def processSctpRow (mmeConfig amfConfig : List (String × List String))
    (r : SctpRowIn) : List SctpEntry :=
  let neName := safeStr r.neName
  let lteIp := safeStr r.lteIp
  let nrIp := safeStr r.nrIp
  let enbId := safeStr r.enbId
  let gnbId := safeStr r.gnbId
  let mmeStr := safeStr r.mme
  let amfStr := safeStr r.amf
  let M :=
    if mmeStr ≠ "" then mmeEntries mmeConfig neName lteIp enbId (splitWs mmeStr) 1
    else ([], 1)
  let A :=
    if amfStr ≠ "" ∧ nrIp ≠ "" then
      amfEntries amfConfig neName nrIp gnbId (splitWs amfStr) M.2
    else ([], M.2)
  let X : List SctpEntry :=
    if lteIp ≠ "" ∧ nrIp ≠ "" then
      [{ meId := neName, sctpNo := A.2, localPort := 36422, localIp := lteIp,
         remotePort := 36422, remoteIp := nrIp, radioMode := 48, assoType := 5,
         nbId := enbId, plmnId := "452-04" },
       { meId := neName, sctpNo := A.2 + 1, localPort := 36422, localIp := nrIp,
         remotePort := 36422, remoteIp := lteIp, radioMode := 8192, assoType := 5,
         nbId := gnbId, plmnId := "452-04" }]
    else []
  M.1 ++ A.1 ++ X

/-- The phase of an SCTP entry in the fixed MME → AMF → X2 order, identified
by its local port. -/
def sctpPhase (e : SctpEntry) : ℕ :=
  if e.localPort = 36412 then 0 else if e.localPort = 38412 then 1 else 2

/-- The fields of one IP-sheet input row used by the Ip routine. -/
structure IpRowIn where
  neName : Pv := .na
  oamIp : Pv := .na
  oamGateway : Pv := .na
  oamVlan : Pv := .na
  lteIp : Pv := .na
  lteGateway : Pv := .na
  lteVlan : Pv := .na
  nrIp : Pv := .na
  nrGateway : Pv := .na
  nrVlan : Pv := .na

/-- One emitted row of the Ip output sheet (`none` = column not written). -/
structure IpOutRow where
  meId : Pv
  moId : String
  ipAddress : Pv
  prefixLength : String
  gatewayIp : Pv
  vid : Option Pv
  serviceMapRadioType : Option String
  serviceInterfaceType : Option String
  plmn : Option String
deriving DecidableEq

/-- `_process_ip_sheet` for one input row: the OAM row and the LTE row
always, plus an NR row exactly when `pd.notna(NR_IP)`. -/
def processIpRow (r : IpRowIn) : List IpOutRow :=
  [{ meId := r.neName, moId := "OAM", ipAddress := r.oamIp, prefixLength := "30",
     gatewayIp := r.oamGateway,
     vid := if pyNotna r.oamVlan then some r.oamVlan else none,
     serviceMapRadioType := none, serviceInterfaceType := none, plmn := none },
   { meId := r.neName, moId := "LTE", ipAddress := r.lteIp, prefixLength := "30",
     gatewayIp := r.lteGateway,
     vid := if pyNotna r.lteVlan then some r.lteVlan else none,
     serviceMapRadioType := some "LTE", serviceInterfaceType := some "4;8;32",
     plmn := some "452-04" }] ++
  (if pyNotna r.nrIp then
    [{ meId := r.neName, moId := "NR", ipAddress := r.nrIp, prefixLength := "30",
       gatewayIp := r.nrGateway,
       vid := if pyNotna r.nrVlan then some r.nrVlan else none,
       serviceMapRadioType := some "5G", serviceInterfaceType := some "1;2;4;16;32",
       plmn := some "452-04" }]
   else [])

/-- `os.path.splitext(name)[0]`: drop the final extension; a run of leading
dots alone does not start an extension. -/
def splitextBase (name : String) : String :=
  let parts := pySplitChar '.' name
  match parts with
  | [] => name
  | [_] => name
  | _ =>
    if parts.dropLast.all (· = "") then name
    else String.intercalate "." parts.dropLast

/-- `generate_output_filename` from utils.py; the timestamp string
(`datetime.now().strftime("%Y%m%d_%H%M")`) is supplied by the clock. -/
def generate_output_filename (templateName groupName timestamp : String) : String :=
  splitextBase templateName ++ "_" ++ groupName ++ "_" ++ timestamp ++ ".xlsx"

/-- `SPUProcessor.get_groups`: the IP sheet's NE names after `dropna`; two or
more names give "first-last" in dataset order, one gives itself, none gives
"default". -/
def getGroups (neNames : List (Option String)) : List String :=
  let ns := neNames.filterMap id
  match ns with
  | [] => ["default"]
  | [n] => [n]
  | n :: m :: rest => [n ++ "-" ++ List.getLast (m :: rest) (List.cons_ne_nil m rest)]

/-- One output workbook per group of a processing run, named by
`generate_output_filename`. -/
def outputFilenames (neNames : List (Option String))
    (templateName timestamp : String) : List String :=
  (getGroups neNames).map fun g => generate_output_filename templateName g timestamp

/-- Lexicographic order on character lists (how Python sorts strings). -/
def charListLe : List Char → List Char → Bool
  | [], _ => true
  | _ :: _, [] => false
  | a :: as, b :: bs => if a = b then charListLe as bs else decide (a < b)

/-- The smaller of two strings in lexicographic order. -/
def strMin (a b : String) : String := if charListLe a.data b.data then a else b

/-- The larger of two strings in lexicographic order. -/
def strMax (a b : String) : String := if charListLe a.data b.data then b else a

/-- Modelled from the spec: the group label derived from the sorted first
and last element names, i.e. the least and greatest name ("default" when
none are present). -/
def specGroupLabel (neNames : List (Option String)) : List String :=
  let ns := neNames.filterMap id
  match ns with
  | [] => ["default"]
  | [n] => [n]
  | n :: m :: rest =>
    [(n :: m :: rest).foldl strMin n ++ "-" ++ (n :: m :: rest).foldl strMax n]

/-- A worksheet row as a map from column name to its cell value
(`none` = never written). -/
abbrev Sheet : Type := String → Option Pv

/-- One `ws.cell(row=…, column=col, value=v)` call. -/
def writeCell (ws : Sheet) (col : String) (v : Pv) : Sheet :=
  fun c => if c = col then some v else ws c

/-- The per-RRU accumulator built by `_process_ru_with_mapping` from the
Radio 4G/5G rows of one (element, RRU) group. -/
structure RuInfo where
  rruType : String := ""
  tech4 : Bool := false
  tech5 : Bool := false
  cells4g : List String := []
  cells5g : List String := []
  rruPorts : List (String × String) := []
  sectorFreqPowerInfo : List String := []

/-- The technology key for the hwWorkScence/functionMode lookups. -/
def techKey (tech4 tech5 : Bool) : String :=
  if tech4 && tech5 then "4G,5G" else if tech5 then "5G" else "4G"

/-- `mapping.get(rru_type, {}).get(tech_key, "")`. -/
def dictGet2 (m : List (String × List (String × String))) (k1 k2 : String) :
    String :=
  (((m.lookup k1).getD []).lookup k2).getD ""

/-- The rruPort → channel-number mapping with its hard-coded defaults. -/
def ruMappedPort (rruPortMapping : List (String × String)) (p : String) : String :=
  let mapped := (rruPortMapping.lookup p).getD ""
  if mapped ≠ "" then mapped
  else if p = "1234" then "1-4"
  else if p = "12" then "1-2"
  else if p = "34" then "3-4"
  else if p = "1-64" ∨ p = "1-32" then p
  else if p = "1" then "1"
  else if p = "2" then "2"
  else if p = "3" then "3"
  else if p = "4" then "4"
  else p

/-- The columns the RU routine computes itself (its `already_set` list). -/
def ruAlreadySet : List String :=
  ["meId", "moId", "name", "hwWorkScence", "functionMode", "sectorFunction",
   "RxChannelNo", "TxChannelNo", "sectorFreqPower"]

/-- The fixed-value fallback of the RU routine: write each Mapping-sheet
fixed value whose column exists in the template and was not already set. -/
def ruApplyFixedValues (templateCols : List String)
    (ruFixedValues : List (String × Pv)) (ws : Sheet) : Sheet :=
  ruFixedValues.foldl
    (fun w cv =>
      if cv.1 ∈ templateCols ∧ cv.1 ∉ ruAlreadySet then writeCell w cv.1 cv.2
      else w)
    ws

/-- One output row of `_process_ru_with_mapping`: the computed writes in
program order, then the fixed-value fallback. -/
def ruWriteRow (templateCols : List String)
    (hwMapping funcMapping : List (String × List (String × String)))
    (rruPortMapping : List (String × String))
    (neName rruName : String) (info : RuInfo)
    (ruFixedValues : List (String × Pv)) (ws : Sheet) : Sheet :=
  let tk := techKey info.tech4 info.tech5
  let sectorFunction := String.intercalate "&" (info.cells4g ++ info.cells5g)
  let rxChannelNo :=
    String.intercalate "&"
      (info.rruPorts.map fun pp => ruMappedPort rruPortMapping pp.1)
  let txChannelNo := rxChannelNo
  let sectorFreqPower := String.intercalate "&" info.sectorFreqPowerInfo
  let ws1 := if "meId" ∈ templateCols then writeCell ws "meId" (Pv.str neName) else ws
  let ws2 := if "moId" ∈ templateCols then writeCell ws1 "moId" (Pv.str rruName) else ws1
  let ws3 :=
    if "name" ∈ templateCols then writeCell ws2 "name" (Pv.str info.rruType) else ws2
  let ws4 :=
    if "hwWorkScence" ∈ templateCols then
      writeCell ws3 "hwWorkScence" (Pv.str (dictGet2 hwMapping info.rruType tk))
    else ws3
  let ws5 :=
    if "functionMode" ∈ templateCols then
      writeCell ws4 "functionMode" (Pv.str (dictGet2 funcMapping info.rruType tk))
    else ws4
  let ws6 :=
    if "sectorFunction" ∈ templateCols then
      writeCell ws5 "sectorFunction" (Pv.str sectorFunction)
    else ws5
  let ws7 :=
    if "RxChannelNo" ∈ templateCols then
      writeCell ws6 "RxChannelNo" (Pv.str rxChannelNo)
    else ws6
  let ws8 :=
    if "TxChannelNo" ∈ templateCols then
      writeCell ws7 "TxChannelNo" (Pv.str txChannelNo)
    else ws7
  let ws9 :=
    if "sectorFreqPower" ∈ templateCols then
      writeCell ws8 "sectorFreqPower" (Pv.str sectorFreqPower)
    else ws8
  ruApplyFixedValues templateCols ruFixedValues ws9

/-- C1 (amended): per-row inclusion of the two mapping parsers.
`SPUProcessor._parse_mappings` keeps a row iff its Version cell equals the
selected version exactly (blank/NaN rows are dropped) and Sheet and Column
are non-blank; `MappingEngine._parse_mappings` keeps a row iff its Version
matches or is blank/NaN and Sheet and Column are non-blank. -/
theorem C1_thm (version : String) (r : MappingRow) :
    (processorParseMappings version ⟨mappingCols, [r]⟩ ≠ .ok [] ↔
      r.version = Pv.str version ∧ safeStr r.sheet ≠ "" ∧ safeStr r.column ≠ "") ∧
    (engineParseMappings version ⟨mappingCols, [r]⟩ ≠ [] ↔
      (r.version = Pv.str version ∨ r.version = Pv.na ∨ r.version = Pv.str "") ∧
        pyTrim (pyStr r.sheet) ≠ "" ∧ pyTrim (pyStr r.column) ≠ "") := by
  constructor
  · unfold processorParseMappings
    rw [if_pos (show "Version" ∈ mappingCols by decide)]
    by_cases hv : r.version = Pv.str version
    · by_cases hs : safeStr r.sheet = "" <;> by_cases hc : safeStr r.column = "" <;>
        simp [List.filter_cons, hv, hs, hc]
    · simp [List.filter_cons, hv]
  · unfold engineParseMappings
    rw [if_neg (by simp : ¬(⟨mappingCols, [r]⟩ : MappingDf).rows = [])]
    rw [if_pos (show "Version" ∈ mappingCols by decide)]
    by_cases hv : r.version = Pv.str version ∨ r.version = Pv.na ∨ r.version = Pv.str ""
    · have hmask : (r.version == Pv.str version || r.version == Pv.na ||
          r.version == Pv.str "") = true := by
        rcases hv with h | h | h <;> simp [h]
      by_cases hs : pyTrim (pyStr r.sheet) = "" <;>
        by_cases hc : pyTrim (pyStr r.column) = "" <;>
          simp [List.filter_cons, hmask, hs, hc, hv]
    · have hmask : (r.version == Pv.str version || r.version == Pv.na ||
          r.version == Pv.str "") = false := by
        simp only [Bool.or_eq_false_iff, beq_eq_false_iff_ne]
        push_neg at hv
        exact ⟨⟨hv.1, hv.2.1⟩, hv.2.2⟩
      simp [List.filter_cons, hmask, hv]

/-- C1 counterexample: a Mapping row with a blank (NaN) Version cell and
valid Sheet/Column is dropped by `SPUProcessor._parse_mappings` (the claim
says every such row is kept), while `MappingEngine._parse_mappings` keeps it. -/
theorem C1_cex :
    processorParseMappings "V1.70.26"
        ⟨["Version", "Sheet", "Column"],
         [{ version := .na, sheet := .str "RU", column := .str "meId" }]⟩ =
      .ok [] ∧
    (engineParseMappings "V1.70.26"
        ⟨["Version", "Sheet", "Column"],
         [{ version := .na, sheet := .str "RU", column := .str "meId" }]⟩).length = 1 :=
  ⟨rfl, rfl⟩

/-- C1 witness: a matching-Version row with valid Sheet/Column is kept by
both parsers. -/
theorem C1_witness :
    processorParseMappings "V1.70.26"
        ⟨mappingCols,
         [{ version := .str "V1.70.26", sheet := .str "RU", column := .str "meId" }]⟩ ≠
      .ok [] ∧
    engineParseMappings "V1.70.26"
        ⟨mappingCols,
         [{ version := .str "V1.70.26", sheet := .str "RU", column := .str "meId" }]⟩ ≠ [] := by
  have h := C1_thm "V1.70.26"
    { version := .str "V1.70.26", sheet := .str "RU", column := .str "meId" }
  exact ⟨h.1.mpr ⟨rfl, by decide, by decide⟩, h.2.mpr ⟨Or.inl rfl, by decide, by decide⟩⟩

/-- C5 (amended): a trimmed `config:`-prefixed fixed value resolves through
the dotted-path config lookup in `MappingEngine._apply_single_rule`, and a
missing path segment yields `""`; but `SPUProcessor._get_mapped_value`
returns a stored fixed value verbatim, with no `config:` resolution. -/
theorem C5_thm (cfg : Json) (version : String) (rule : EngRule)
    (sourceData : List (String × Df)) (numRows : ℕ) :
    (pyNotna rule.fixedValue = true → pyTrim (pyStr rule.fixedValue) ≠ "" →
      pyStartsWith (pyTrim (pyStr rule.fixedValue)) "config:" = true →
      engineApplySingleRule cfg version rule sourceData numRows =
        List.replicate numRows
          (some (Pv.str (getConfigValue cfg (pyDrop 7 (pyTrim (pyStr rule.fixedValue))))))) ∧
    (∀ (es : List (String × Json)) (k : String) (ks : List String),
      es.lookup k = none → configWalk (k :: ks) (.obj es) = "") ∧
    (∀ (m : ProcRule) (sourceRow : Row) (v : Pv),
      m.fixedValue = some v → procGetMappedValue m sourceRow = some v) := by
  refine ⟨fun h1 h2 h3 => ?_, fun es k ks h => ?_, fun m sourceRow v h => ?_⟩
  · unfold engineApplySingleRule
    rw [if_pos ⟨h1, h2⟩, if_pos h3]
  · unfold configWalk
    simp [h]
  · unfold procGetMappedValue
    rw [h]

/-- C5 counterexample: for the fixed value `config:mcc` with config leaf
`"mcc" = 100`, the processor-side fixed-value path returns the literal
`config:mcc` instead of the config leaf `"100"`. -/
theorem C5_cex :
    procGetMappedValue
        { column := "mcc", sourceSheet := "", sourceColumn := "",
          fixedValue := some (Pv.str "config:mcc") } [] =
      some (Pv.str "config:mcc") ∧
    getConfigValue (Json.obj [("mcc", Json.i 100)]) "mcc" = "100" ∧
    Pv.str "config:mcc" ≠ Pv.str "100" :=
  ⟨rfl, rfl, by decide⟩

/-- C5 witness: `config:mcc` (with surrounding blanks trimmed) resolves to
the stringified leaf `100` over two rows. -/
theorem C5_witness :
    engineApplySingleRule (Json.obj [("mcc", Json.i 100)]) "V1.70.26"
        { targetColumn := "mcc", sourceSheet := "", sourceColumn := "",
          fixedValue := Pv.str " config:mcc", note := "", meaning := "" } [] 2 =
      List.replicate 2 (some (Pv.str "100")) := by
  rw [(C5_thm (Json.obj [("mcc", Json.i 100)]) "V1.70.26"
      { targetColumn := "mcc", sourceSheet := "", sourceColumn := "",
        fixedValue := Pv.str " config:mcc", note := "", meaning := "" } [] 2).1
    rfl (by decide) (by decide)]
  rfl

/-- C10: a non-empty Mapping sheet without a `Version` column makes
`set_input_data` raise (the parse indexes the absent column) instead of
degrading. -/
theorem C10_thm (version : String) (df : MappingDf)
    (hcol : "Version" ∉ df.columns) (hrows : df.rows ≠ []) :
    setInputData version [("Mapping", df)] = .error "KeyError: Version" := by
  unfold setInputData
  simp [List.lookup, hrows, processorParseMappings, hcol]

/-- C10 witness: a one-row Mapping sheet with only Sheet/Column columns. -/
theorem C10_witness :
    setInputData "V1.70.26"
        [("Mapping",
          ⟨["Sheet", "Column"], [{ sheet := Pv.str "RU", column := Pv.str "meId" }]⟩)] =
      .error "KeyError: Version" :=
  C10_thm "V1.70.26"
    ⟨["Sheet", "Column"], [{ sheet := Pv.str "RU", column := Pv.str "meId" }]⟩
    (by decide) (by simp)

/-- Bounds for the power counterexample: `0.475 ≤ log10 3`. -/
theorem logb_ten_three_lb : (19 : ℝ) / 40 ≤ Real.logb 10 3 := by
  have h10 : (0 : ℝ) < Real.log 10 := Real.log_pos (by norm_num)
  have h1 : Real.log ((10 : ℝ) ^ (19 : ℕ)) ≤ Real.log ((3 : ℝ) ^ (40 : ℕ)) :=
    Real.log_le_log (by positivity) (by norm_num)
  rw [Real.log_pow, Real.log_pow] at h1
  push_cast at h1
  rw [Real.logb, le_div_iff h10]
  linarith

/-- Bounds for the power counterexample: `log10 3 < 0.48`. -/
theorem logb_ten_three_ub : Real.logb 10 3 < (12 : ℝ) / 25 := by
  have h10 : (0 : ℝ) < Real.log 10 := Real.log_pos (by norm_num)
  have h2 : Real.log ((3 : ℝ) ^ (25 : ℕ)) < Real.log ((10 : ℝ) ^ (12 : ℕ)) :=
    Real.log_lt_log (by positivity) (by norm_num)
  rw [Real.log_pow, Real.log_pow] at h2
  push_cast at h2
  rw [Real.logb, div_lt_iff h10]
  linarith

/-- The 5G power computation at 3 watts: the dBm-tenths value 347.71…
is truncated by `int()` to 347. -/
theorem cell5gPowerOut_three : cell5gPowerOut (Pv.num 3) = some 347 := by
  have hlb := logb_ten_three_lb
  have hub := logb_ten_three_ub
  have hcast : (((3 : ℚ) : ℝ)) = (3 : ℝ) := by norm_num
  have hval : pyInt (10 * (10 * Real.logb 10 (((3 : ℚ) : ℝ)) + 30)) = 347 := by
    rw [hcast]
    unfold pyInt
    rw [if_pos (by nlinarith : (0 : ℝ) ≤ 10 * (10 * Real.logb 10 (3 : ℝ) + 30))]
    rw [Int.floor_eq_iff]
    constructor
    · push_cast
      nlinarith
    · push_cast
      nlinarith
  unfold cell5gPowerOut
  have hin : cell5gPowerInput (Pv.num 3) = some (3 : ℚ) := rfl
  rw [hin, Option.map_some']
  rw [if_pos (by norm_num : (0 : ℚ) < 3), hval]

/-- The claimed rounding of the same value gives 348 instead. -/
theorem round_power_three :
    round ((10 : ℝ) * (10 * Real.logb 10 (3 : ℝ) + 30)) = 348 := by
  have hlb := logb_ten_three_lb
  have hub := logb_ten_three_ub
  rw [round_eq, Int.floor_eq_iff]
  constructor
  · push_cast
    nlinarith
  · push_cast
    nlinarith

/-- Association-list lookup misses when no key matches. -/
theorem pvLookup_eq_none (l : List (String × Pv)) (k : String)
    (h : ∀ p ∈ l, p.1 ≠ k) : l.lookup k = none := by
  induction l with
  | nil => rfl
  | cons a t ih =>
    obtain ⟨k1, v1⟩ := a
    have ha : k1 ≠ k := h (k1, v1) (by simp)
    have hb : (k == k1) = false := by
      simp only [beq_eq_false_iff_ne]
      exact fun e => ha e.symm
    simp only [List.lookup, hb]
    exact ih fun p hp => h p (by simp [hp])

/-- C2 (amended): for a numeric positive power `p`, the written
`configuredMaxTxPower` equals the `int()`-truncation of
`10*(10*log10(p)+30)` (truncation toward zero, not `round`); power 0 or NaN
writes 0; and `powerPerRERef` is written as the constant 178 on every row. -/
theorem C2_thm (cols : List String) (r : Cell5gRow) :
    (∀ q : ℚ, r.configuredMaxTxPower = Pv.num q → 0 < q →
      "configuredMaxTxPower" ∈ cols →
      ("configuredMaxTxPower",
        Pv.num ((pyInt (10 * (10 * Real.logb 10 ((q : ℝ)) + 30)) : ℤ) : ℚ)) ∈
        cell5gCalcWrites cols r) ∧
    ((r.configuredMaxTxPower = Pv.na ∨ r.configuredMaxTxPower = Pv.num 0) →
      "configuredMaxTxPower" ∈ cols →
      ("configuredMaxTxPower", Pv.num ((0 : ℤ) : ℚ)) ∈ cell5gCalcWrites cols r) ∧
    ("powerPerRERef" ∈ cols →
      ("powerPerRERef", Pv.num 178) ∈ cell5gCalcWrites cols r) := by
  refine ⟨fun q hq hpos hc => ?_, fun h0 hc => ?_, fun hc => ?_⟩
  · have hout : cell5gPowerOut r.configuredMaxTxPower =
        some (pyInt (10 * (10 * Real.logb 10 ((q : ℝ)) + 30))) := by
      rw [hq]
      unfold cell5gPowerOut
      have hin : cell5gPowerInput (Pv.num q) = some q := rfl
      rw [hin, Option.map_some', if_pos hpos]
    simp [cell5gCalcWrites, optIntWrite, hout, hc]
  · have hout : cell5gPowerOut r.configuredMaxTxPower = some 0 := by
      rcases h0 with h | h <;> rw [h] <;> unfold cell5gPowerOut
      · have hin : cell5gPowerInput Pv.na = some (0 : ℚ) := rfl
        rw [hin, Option.map_some', if_neg (by norm_num)]
      · have hin : cell5gPowerInput (Pv.num 0) = some (0 : ℚ) := rfl
        rw [hin, Option.map_some', if_neg (by norm_num)]
    simp [cell5gCalcWrites, optIntWrite, hout, hc]
  · simp [cell5gCalcWrites, hc]

/-- C2 counterexample: at p = 3 watts the code writes `int(347.71…)` = 347,
while the claimed `round(347.71…)` is 348. -/
theorem C2_cex :
    cell5gCalcWrites ["configuredMaxTxPower"] { configuredMaxTxPower := Pv.num 3 } =
      [("configuredMaxTxPower", Pv.num 347)] ∧
    round ((10 : ℝ) * (10 * Real.logb 10 (3 : ℝ) + 30)) = 348 := by
  refine ⟨?_, round_power_three⟩
  simp [cell5gCalcWrites, optIntWrite, cell5gPowerOut_three]

/-- C2 witness: a concrete row with power 3 watts and both columns. -/
theorem C2_witness :
    ("configuredMaxTxPower",
      Pv.num ((pyInt (10 * (10 * Real.logb 10 (((3 : ℚ) : ℝ)) + 30)) : ℤ) : ℚ)) ∈
      cell5gCalcWrites ["configuredMaxTxPower", "powerPerRERef"]
        { configuredMaxTxPower := Pv.num 3 } ∧
    ("powerPerRERef", Pv.num 178) ∈
      cell5gCalcWrites ["configuredMaxTxPower", "powerPerRERef"]
        { configuredMaxTxPower := Pv.num 3 } :=
  ⟨(C2_thm ["configuredMaxTxPower", "powerPerRERef"]
      { configuredMaxTxPower := Pv.num 3 }).1 3 rfl (by norm_num) (by simp),
   (C2_thm ["configuredMaxTxPower", "powerPerRERef"]
      { configuredMaxTxPower := Pv.num 3 }).2.2 (by simp)⟩

/-- Membership in a conditionally-present chunk of writes. -/
theorem mem_ite_nil {α : Type} (a : α) (c : Prop) [Decidable c] (l : List α) :
    a ∈ (if c then l else []) ↔ c ∧ a ∈ l := by
  by_cases h : c <;> simp [h]

/-- `lookup` distributes over `++`. -/
theorem pvLookup_append (l1 l2 : List (String × Pv)) (k : String) :
    (l1 ++ l2).lookup k = (l1.lookup k).orElse fun _ => l2.lookup k := by
  induction l1 with
  | nil => rfl
  | cons a t ih =>
    obtain ⟨k1, v1⟩ := a
    by_cases h : (k == k1) = true <;> simp [List.lookup, h, ih, Option.orElse]

/-- `lookup` into a conditionally-present chunk. -/
theorem lookup_ite_nil (c : Prop) [Decidable c] (l : List (String × Pv)) (k : String) :
    (if c then l else []).lookup k = if c then l.lookup k else none := by
  split <;> rfl

/-- A `try`-guarded write never yields a different column. -/
theorem optNumWrite_lookup_ne (name k : String) (o : Option ℚ)
    (h : (k == name) = false) : (optNumWrite name o).lookup k = none := by
  cases o <;> simp [optNumWrite, List.lookup, h]

/-- A `try`-guarded integer write never yields a different column. -/
theorem optIntWrite_lookup_ne (name k : String) (o : Option ℤ)
    (h : (k == name) = false) : (optIntWrite name o).lookup k = none := by
  cases o <;> simp [optIntWrite, List.lookup, h]

/-- `Option.orElse` on a missing first branch. -/
theorem none_orElse_eval {α : Type} (f : Unit → Option α) :
    (none : Option α).orElse f = f () := rfl

/-- `Option.orElse` on a present first branch. -/
theorem some_orElse_eval {α : Type} (a : α) (f : Unit → Option α) :
    (some a).orElse f = some a := rfl

/-- C3 (amended): in the 5G routine a non-numeric power value makes the
per-field `try/except` skip that one write — its destination cell is never
written — while the other fields of the row and all other rows are still
processed; but in the 4G routine a non-numeric bandwidth degrades to the
`safe_int` default 0 and the bandwidth-code write still happens, writing the
code for bandwidth 0 rather than leaving the cell untouched. -/
theorem C3_thm (cols : List String) (m : List (String × ℤ)) (s : String)
    (r : Cell5gRow) (ul : Pv)
    (hr : r.configuredMaxTxPower = Pv.str s)
    (hparse : parseFloatLit s = none) :
    ((cell5gCalcWrites cols r).lookup "configuredMaxTxPower" = none) ∧
    ("powerPerRERef" ∈ cols →
      ("powerPerRERef", Pv.num 178) ∈ cell5gCalcWrites cols r) ∧
    (∀ rows : List Cell5gRow, (cell5gCalcSheet cols rows).length = rows.length) ∧
    ("bandWidthDl" ∈ cols →
      (cell4gBwWrites cols m "FDD" (Pv.str s) ul).lookup "bandWidthDl" =
        some (Pv.num ((get_bandwidth_code m 0 : ℤ) : ℚ))) := by
  have hout : cell5gPowerOut r.configuredMaxTxPower = none := by
    rw [hr]
    unfold cell5gPowerOut
    have hin : cell5gPowerInput (Pv.str s) = none := by
      simp [cell5gPowerInput, hparse]
    rw [hin]
    rfl
  refine ⟨?_, fun hc => ?_, fun rows => ?_, fun hc => ?_⟩
  · simp only [cell5gCalcWrites, hout]
    simp [pvLookup_append, lookup_ite_nil, optNumWrite_lookup_ne,
      optIntWrite_lookup_ne, optIntWrite, List.lookup, none_orElse_eval]
  · simp [cell5gCalcWrites, hc]
  · simp [cell5gCalcSheet]
  · have hup : pyToUpper "FDD" = "FDD" := rfl
    have hsi : safeInt (Pv.str s) 0 = 0 := by simp [safeInt, hparse]
    simp only [cell4gBwWrites, hup, hsi]
    simp [pvLookup_append, lookup_ite_nil, List.lookup, hc,
      none_orElse_eval, some_orElse_eval]

/-- C3 counterexample: a non-numeric 4G bandwidth cell ("abc", FDD) does not
leave the `bandWidthDl` cell untouched — the routine writes bandwidth code 0. -/
theorem C3_cex :
    cell4gBwWrites ["bandWidthDl"] [] "FDD" (Pv.str "abc") (Pv.str "abc") =
      [("bandWidthDl", Pv.num 0)] := by
  decide

/-- C3 witness: non-numeric power "abc" on a 5G row skips only that write,
still writes `powerPerRERef`, and the 4G bandwidth write still happens. -/
theorem C3_witness :
    (cell5gCalcWrites ["powerPerRERef", "bandWidthDl"]
        { configuredMaxTxPower := Pv.str "abc" }).lookup "configuredMaxTxPower" =
      none ∧
    ("powerPerRERef", Pv.num 178) ∈
      cell5gCalcWrites ["powerPerRERef", "bandWidthDl"]
        { configuredMaxTxPower := Pv.str "abc" } ∧
    (cell4gBwWrites ["powerPerRERef", "bandWidthDl"] [] "FDD" (Pv.str "abc")
        Pv.na).lookup "bandWidthDl" =
      some (Pv.num ((get_bandwidth_code [] 0 : ℤ) : ℚ)) := by
  have h := C3_thm ["powerPerRERef", "bandWidthDl"] [] "abc"
    { configuredMaxTxPower := Pv.str "abc" } Pv.na rfl (by decide)
  exact ⟨h.1, h.2.1 (by simp), h.2.2.2 (by simp)⟩

/-- Numbering and shape of the MME loop output: consecutive `sctpNo` from
`n`, final counter `n + length`, all local ports 36412. -/
theorem mmeEntries_spec (cfg : List (String × List String)) (a b c : String)
    (names : List String) :
    ∀ n : ℕ,
      (mmeEntries cfg a b c names n).1.map (·.sctpNo) =
        List.range' n (mmeEntries cfg a b c names n).1.length ∧
      (mmeEntries cfg a b c names n).2 =
        n + (mmeEntries cfg a b c names n).1.length ∧
      ∀ e ∈ (mmeEntries cfg a b c names n).1, e.localPort = 36412 := by
  induction names with
  | nil => intro n; simp [mmeEntries]
  | cons name rest ih =>
    intro n
    rw [mmeEntries]
    cases h : cfg.lookup name with
    | none => simpa using ih n
    | some ips =>
      by_cases hr : (ips.filter fun ip => ip != "" && ip != "0.0.0.0") ≠ []
      · simp only [if_pos hr]
        obtain ⟨ih1, ih2, ih3⟩ := ih (n + 1)
        refine ⟨?_, ?_, ?_⟩
        · rw [List.map_cons, ih1, List.length_cons, List.range'_succ]
        · rw [List.length_cons, ih2]; omega
        · intro e he
          rcases List.mem_cons.mp he with rfl | he2
          · rfl
          · exact ih3 e he2
      · simp only [if_neg hr]
        exact ih n

/-- Numbering and shape of the AMF loop output. -/
theorem amfEntries_spec (cfg : List (String × List String)) (a b c : String)
    (names : List String) :
    ∀ n : ℕ,
      (amfEntries cfg a b c names n).1.map (·.sctpNo) =
        List.range' n (amfEntries cfg a b c names n).1.length ∧
      (amfEntries cfg a b c names n).2 =
        n + (amfEntries cfg a b c names n).1.length ∧
      ∀ e ∈ (amfEntries cfg a b c names n).1, e.localPort = 38412 := by
  induction names with
  | nil => intro n; simp [amfEntries]
  | cons name rest ih =>
    intro n
    rw [amfEntries]
    cases h : cfg.lookup name with
    | none => simpa using ih n
    | some ips =>
      by_cases hr : (ips.filter fun ip => ip != "" && ip != "0.0.0.0") ≠ []
      · simp only [if_pos hr]
        obtain ⟨ih1, ih2, ih3⟩ := ih (n + 1)
        refine ⟨?_, ?_, ?_⟩
        · rw [List.map_cons, ih1, List.length_cons, List.range'_succ]
        · rw [List.length_cons, ih2]; omega
        · intro e he
          rcases List.mem_cons.mp he with rfl | he2
          · rfl
          · exact ih3 e he2
      · simp only [if_neg hr]
        exact ih n

/-- A list whose entries all sit in one phase is sorted by phase. -/
theorem pairwise_phase_const (l : List SctpEntry) (k : ℕ)
    (h : ∀ e ∈ l, sctpPhase e = k) :
    l.Pairwise (fun a b => sctpPhase a ≤ sctpPhase b) := by
  induction l with
  | nil => exact List.Pairwise.nil
  | cons a t ih =>
    refine List.Pairwise.cons (fun b hb => ?_) (ih fun e he => h e (by simp [he]))
    rw [h a (by simp), h b (by simp [hb])]

/-- Assembly lemma for the three SCTP segments. -/
theorem sctp_segments (M A : List SctpEntry × ℕ) (X : List SctpEntry)
    (hM1 : M.1.map (·.sctpNo) = List.range' 1 M.1.length)
    (hM2 : M.2 = 1 + M.1.length)
    (hMp : ∀ e ∈ M.1, e.localPort = 36412)
    (hA1 : A.1.map (·.sctpNo) = List.range' M.2 A.1.length)
    (hA2 : A.2 = M.2 + A.1.length)
    (hAp : ∀ e ∈ A.1, e.localPort = 38412)
    (hX : X = [] ∨ ∃ e1 e2, X = [e1, e2] ∧ e1.sctpNo = A.2 ∧
      e2.sctpNo = A.2 + 1 ∧ e1.localPort = 36422 ∧ e2.localPort = 36422) :
    ((M.1 ++ A.1 ++ X).map (·.sctpNo) =
      List.range' 1 (M.1 ++ A.1 ++ X).length) ∧
    (M.1 ++ A.1 ++ X).Pairwise (fun a b => sctpPhase a ≤ sctpPhase b) ∧
    (((M.1 ++ A.1 ++ X).filter (fun e => e.localPort == 36422)).length = 0 ∨
      ((M.1 ++ A.1 ++ X).filter (fun e => e.localPort == 36422)).length = 2) := by
  have hXmap : X.map (·.sctpNo) = List.range' A.2 X.length ∧
      (∀ e ∈ X, e.localPort = 36422) ∧ (X.length = 0 ∨ X.length = 2) := by
    rcases hX with rfl | ⟨e1, e2, rfl, h1, h2, hp1, hp2⟩
    · exact ⟨rfl, by simp, Or.inl rfl⟩
    · refine ⟨?_, ?_, Or.inr rfl⟩
      · simp only [List.map_cons, List.map_nil, List.length_cons,
          List.length_nil, h1, h2, List.range'_succ]
        rfl
      · intro e he
        rcases List.mem_cons.mp he with rfl | he2
        · exact hp1
        · rcases List.mem_cons.mp he2 with rfl | he3
          · exact hp2
          · cases he3
    
  obtain ⟨hX1, hXp, hXlen⟩ := hXmap
  refine ⟨?_, ?_, ?_⟩
  · rw [List.map_append, List.map_append, hM1, hA1, hX1, hA2, hM2,
      List.length_append, List.length_append, List.range'_append_1]
    have harith : (1 : ℕ) + M.1.length + A.1.length =
        1 + (A.1.length + M.1.length) := by omega
    rw [harith, List.range'_append_1]
    congr 1
    omega
  · rw [List.append_assoc]
    rw [List.pairwise_append]
    refine ⟨pairwise_phase_const _ 0 (fun e he => by simp [sctpPhase, hMp e he]), ?_, ?_⟩
    · rw [List.pairwise_append]
      refine ⟨pairwise_phase_const _ 1 (fun e he => by simp [sctpPhase, hAp e he]),
        pairwise_phase_const _ 2 (fun e he => by simp [sctpPhase, hXp e he]), ?_⟩
      intro x hx y hy
      have : sctpPhase x = 1 := by simp [sctpPhase, hAp x hx]
      have hy2 : sctpPhase y = 2 := by simp [sctpPhase, hXp y hy]
      omega
    · intro x hx y hy
      have hx0 : sctpPhase x = 0 := by simp [sctpPhase, hMp x hx]
      rcases List.mem_append.mp hy with hy1 | hy2
      · have : sctpPhase y = 1 := by simp [sctpPhase, hAp y hy1]
        omega
      · have : sctpPhase y = 2 := by simp [sctpPhase, hXp y hy2]
        omega
  · rw [List.filter_append, List.filter_append]
    have hMf : M.1.filter (fun e => e.localPort == 36422) = [] := by
      rw [List.filter_eq_nil_iff]
      intro e he
      simp [hMp e he]
    have hAf : A.1.filter (fun e => e.localPort == 36422) = [] := by
      rw [List.filter_eq_nil_iff]
      intro e he
      simp [hAp e he]
    have hXf : (X.filter (fun e => e.localPort == 36422)).length = X.length := by
      rw [List.filter_eq_self.mpr]
      intro e he
      simp [hXp e he]
    rw [hMf, hAf]
    simp only [List.nil_append, List.length_append, List.length_nil, hXf]
    exact hXlen
    

/-- C4: per element row, the emitted `sctpNo` values are exactly 1, 2, 3, …
with no gaps, assigned to the MME rows first, then the AMF rows, then the
(zero or two) X2 rows, in that fixed order. -/
theorem C4_thm (mmeConfig amfConfig : List (String × List String))
    (r : SctpRowIn) :
    ((processSctpRow mmeConfig amfConfig r).map (·.sctpNo) =
      List.range' 1 (processSctpRow mmeConfig amfConfig r).length) ∧
    (processSctpRow mmeConfig amfConfig r).Pairwise
      (fun a b => sctpPhase a ≤ sctpPhase b) ∧
    (((processSctpRow mmeConfig amfConfig r).filter
        (fun e => e.localPort == 36422)).length = 0 ∨
      ((processSctpRow mmeConfig amfConfig r).filter
        (fun e => e.localPort == 36422)).length = 2) := by
  unfold processSctpRow
  apply sctp_segments
  case hM1 =>
    split
    · exact (mmeEntries_spec _ _ _ _ _ 1).1
    · rfl
  case hM2 =>
    split
    · exact (mmeEntries_spec _ _ _ _ _ 1).2.1
    · rfl
  case hMp =>
    split
    · exact (mmeEntries_spec _ _ _ _ _ 1).2.2
    · intro e he; cases he
  case hA1 =>
    split
    · exact (amfEntries_spec _ _ _ _ _ _).1
    · rfl
  case hA2 =>
    split
    · exact (amfEntries_spec _ _ _ _ _ _).2.1
    · rfl
  case hAp =>
    split
    · exact (amfEntries_spec _ _ _ _ _ _).2.2
    · intro e he; cases he
  case hX =>
    split
    · exact Or.inr ⟨_, _, rfl, rfl, rfl, rfl, rfl⟩
    · exact Or.inl rfl

/-- C6: with no table entry for the input value, the 4G bandwidth code falls
back to the tiers `20→5, 15→4, 10→3, 5→2, 3→1, 0→0`, and generally
`≥20→5, ≥15→4, ≥10→3, ≥5→2, ≥3→1, else 0` (so any `10 ≤ v < 15` gives 3). -/
theorem C6_thm (m : List (String × ℤ)) (v : ℤ)
    (h : m.lookup (bwFloatKey v) = none) :
    (v = 20 → get_bandwidth_code m v = 5) ∧
    (v = 15 → get_bandwidth_code m v = 4) ∧
    (v = 10 → get_bandwidth_code m v = 3) ∧
    (v = 5 → get_bandwidth_code m v = 2) ∧
    (v = 3 → get_bandwidth_code m v = 1) ∧
    (v = 0 → get_bandwidth_code m v = 0) ∧
    (20 ≤ v → get_bandwidth_code m v = 5) ∧
    (15 ≤ v → v < 20 → get_bandwidth_code m v = 4) ∧
    (10 ≤ v → v < 15 → get_bandwidth_code m v = 3) ∧
    (5 ≤ v → v < 10 → get_bandwidth_code m v = 2) ∧
    (3 ≤ v → v < 5 → get_bandwidth_code m v = 1) ∧
    (v < 3 → get_bandwidth_code m v = 0) := by
  unfold get_bandwidth_code
  simp only [h]
  refine ⟨?_, ?_, ?_, ?_, ?_, ?_, ?_, ?_, ?_, ?_, ?_, ?_⟩ <;>
    (intros; split_ifs <;> omega)

/-- C6 witness: the empty table has no entry for 12, and the fallback maps
12 (an unlisted value with 10 ≤ 12 < 15) to 3. -/
theorem C6_witness :
    List.lookup (bwFloatKey 12) ([] : List (String × ℤ)) = none ∧
      get_bandwidth_code [] 12 = 3 :=
  ⟨rfl, ((C6_thm [] 12 rfl).2.2.2.2.2.2.2.2.1) (by norm_num) (by norm_num)⟩

/-- C9: the IP routine emits exactly the OAM and LTE rows when the row has
no NR IP, and exactly those plus one NR row when an NR IP is present. -/
theorem C9_thm (r : IpRowIn) :
    ((processIpRow r).map (·.moId) =
      if pyNotna r.nrIp then ["OAM", "LTE", "NR"] else ["OAM", "LTE"]) ∧
    ((processIpRow r).length = if pyNotna r.nrIp then 3 else 2) := by
  cases h : pyNotna r.nrIp <;> simp [processIpRow, h]

/-- C7 (amended): every processing run yields exactly one output file named
`{TemplateBaseName}_{GroupLabel}_{timestamp}.xlsx`; the group label joins the
first and last element names in dataset order (not sorted), is the single
name when only one exists, and "default" when none do. -/
theorem C7_thm (neNames : List (Option String)) (templateName timestamp : String) :
    outputFilenames neNames templateName timestamp =
      [splitextBase templateName ++ "_" ++
        (match neNames.filterMap id with
         | [] => "default"
         | [n] => n
         | n :: m :: rest => n ++ "-" ++ List.getLast (m :: rest) (List.cons_ne_nil m rest)) ++
        "_" ++ timestamp ++ ".xlsx"] := by
  simp only [outputFilenames, getGroups, generate_output_filename]
  rcases h : neNames.filterMap id with _ | ⟨n, _ | ⟨m, rest⟩⟩ <;> simp

/-- C7 counterexample: with dataset order ["B", "A"] the code's label is
"B-A" (input order), while the claimed sorted first/last label is "A-B". -/
theorem C7_cex :
    getGroups [some "B", some "A"] = ["B-A"] ∧
    specGroupLabel [some "B", some "A"] = ["A-B"] ∧
    generate_output_filename "SPU_Template.xlsx" "B-A" "20261012_0900" =
      "SPU_Template_B-A_20261012_0900.xlsx" ∧
    ("B-A" : String) ≠ "A-B" := by
  refine ⟨rfl, ?_, rfl, by decide⟩
  decide

/-- The fixed-value fallback never touches a column of `already_set`. -/
theorem ruApplyFixedValues_preserves (templateCols : List String)
    (fvs : List (String × Pv)) (ws : Sheet) (col : String)
    (h : col ∈ ruAlreadySet) :
    ruApplyFixedValues templateCols fvs ws col = ws col := by
  induction fvs generalizing ws with
  | nil => rfl
  | cons cv rest ih =>
    have hstep : ruApplyFixedValues templateCols (cv :: rest) ws =
        ruApplyFixedValues templateCols rest
          (if cv.1 ∈ templateCols ∧ cv.1 ∉ ruAlreadySet then writeCell ws cv.1 cv.2
           else ws) := rfl
    rw [hstep, ih]
    by_cases hcv : cv.1 ∈ templateCols ∧ cv.1 ∉ ruAlreadySet
    · rw [if_pos hcv]
      have hne : col ≠ cv.1 := fun e => hcv.2 (e ▸ h)
      simp [writeCell, hne]
    · rw [if_neg hcv]

/-- C8: after the RU routine's fixed-value fallback runs, each of the nine
computed fields still holds exactly the value the routine computed for it,
regardless of the fixed-value rules. -/
theorem C8_thm (templateCols : List String)
    (hwMapping funcMapping : List (String × List (String × String)))
    (rruPortMapping : List (String × String))
    (neName rruName : String) (info : RuInfo)
    (ruFixedValues : List (String × Pv)) (ws : Sheet) :
    (ruWriteRow templateCols hwMapping funcMapping rruPortMapping neName rruName
        info ruFixedValues ws "meId" =
      if "meId" ∈ templateCols then some (Pv.str neName) else ws "meId") ∧
    (ruWriteRow templateCols hwMapping funcMapping rruPortMapping neName rruName
        info ruFixedValues ws "moId" =
      if "moId" ∈ templateCols then some (Pv.str rruName) else ws "moId") ∧
    (ruWriteRow templateCols hwMapping funcMapping rruPortMapping neName rruName
        info ruFixedValues ws "name" =
      if "name" ∈ templateCols then some (Pv.str info.rruType) else ws "name") ∧
    (ruWriteRow templateCols hwMapping funcMapping rruPortMapping neName rruName
        info ruFixedValues ws "hwWorkScence" =
      if "hwWorkScence" ∈ templateCols then
        some (Pv.str (dictGet2 hwMapping info.rruType (techKey info.tech4 info.tech5)))
      else ws "hwWorkScence") ∧
    (ruWriteRow templateCols hwMapping funcMapping rruPortMapping neName rruName
        info ruFixedValues ws "functionMode" =
      if "functionMode" ∈ templateCols then
        some (Pv.str (dictGet2 funcMapping info.rruType (techKey info.tech4 info.tech5)))
      else ws "functionMode") ∧
    (ruWriteRow templateCols hwMapping funcMapping rruPortMapping neName rruName
        info ruFixedValues ws "sectorFunction" =
      if "sectorFunction" ∈ templateCols then
        some (Pv.str (String.intercalate "&" (info.cells4g ++ info.cells5g)))
      else ws "sectorFunction") ∧
    (ruWriteRow templateCols hwMapping funcMapping rruPortMapping neName rruName
        info ruFixedValues ws "RxChannelNo" =
      if "RxChannelNo" ∈ templateCols then
        some (Pv.str (String.intercalate "&"
          (info.rruPorts.map fun pp => ruMappedPort rruPortMapping pp.1)))
      else ws "RxChannelNo") ∧
    (ruWriteRow templateCols hwMapping funcMapping rruPortMapping neName rruName
        info ruFixedValues ws "TxChannelNo" =
      if "TxChannelNo" ∈ templateCols then
        some (Pv.str (String.intercalate "&"
          (info.rruPorts.map fun pp => ruMappedPort rruPortMapping pp.1)))
      else ws "TxChannelNo") ∧
    (ruWriteRow templateCols hwMapping funcMapping rruPortMapping neName rruName
        info ruFixedValues ws "sectorFreqPower" =
      if "sectorFreqPower" ∈ templateCols then
        some (Pv.str (String.intercalate "&" info.sectorFreqPowerInfo))
      else ws "sectorFreqPower") := by
  refine ⟨?_, ?_, ?_, ?_, ?_, ?_, ?_, ?_, ?_⟩ <;>
    (unfold ruWriteRow
     rw [ruApplyFixedValues_preserves _ _ _ _ (by decide)]
     simp [writeCell, ite_apply])

end SPU
